import Mathlib

/-!
Verification of the query-parameter-to-database-filter mapping of the
article service (file main.go, handler returnAllArticles).

The handler reads six request query parameters as strings (the HTTP layer
returns the empty string for an absent parameter), coerces the numeric
ones with strconv.Atoi while discarding the error, builds a MongoDB
filter document and find-options, and hands them to the store.  We embed
the pure translation part: from the six parameter strings to the query
descriptor (filter predicates, optional sort specification, skip, limit).

Go integers here are the 64-bit platform int: strconv.Atoi clamps an
out-of-range numeral to the nearest representable value (math.MaxInt64 or
math.MinInt64) while returning a range error that the handler discards,
and arithmetic on int wraps modulo 2^64 (two-sided complement), which we
model explicitly where overflow is possible.
-/

/-- The largest value of the 64-bit Go int, math.MaxInt64. -/
def intMax : Int := 9223372036854775807

/-- The smallest value of the 64-bit Go int, math.MinInt64. -/
def intMin : Int := -9223372036854775808

/-- Two-sided-complement wrap-around of 64-bit Go int arithmetic:
reduce an unbounded integer into the interval from intMin to intMax. -/
def wrap64 (n : Int) : Int :=
  (n + 9223372036854775808) % 18446744073709551616 - 9223372036854775808

/-- One step of decimal accumulation over a character list: all
characters must be ASCII digits, exactly as in strconv.Atoi base 10. -/
def parseDigitsAux : List Char → Nat → Option Nat
  | [], acc => some acc
  | c :: cs, acc =>
      if c.isDigit then parseDigitsAux cs (acc * 10 + (c.toNat - 48))
      else none

/-- The exact (unbounded) integer denoted by a string under the syntax of
strconv.Atoi base 10: an optional single leading plus or minus sign
followed by at least one ASCII digit and nothing else; none on any
syntax violation. -/
def atoiParse (s : String) : Option Int :=
  match s.data with
  | [] => none
  | '+' :: [] => none
  | '+' :: cs => (parseDigitsAux cs 0).map (fun n => (n : Int))
  | '-' :: [] => none
  | '-' :: cs => (parseDigitsAux cs 0).map (fun n => -(n : Int))
  | cs => (parseDigitsAux cs 0).map (fun n => (n : Int))

/-- The int value the handler obtains from `v, _ := strconv.Atoi(s)`:
0 when the syntax is invalid, and the value clamped to the 64-bit range
when the numeral is out of range (strconv returns the clamped value
together with a range error, and the handler discards the error). -/
def goAtoi (s : String) : Int :=
  match atoiParse s with
  | none => 0
  | some v => if v > intMax then intMax else if v < intMin then intMin else v

/-- Page coercion of returnAllArticles: `if page <= 0 { page = 1 }`. -/
def coercePage (s : String) : Int :=
  let page := goAtoi s
  if page ≤ 0 then 1 else page

/-- Limit coercion of returnAllArticles: `if limit <= 0 { limit = 10 }`. -/
def coerceLimit (s : String) : Int :=
  let limit := goAtoi s
  if limit ≤ 0 then 10 else limit

/-- Order coercion inside the sort branch of returnAllArticles:
`order, _ := strconv.Atoi(sortOrder); if order != 1 && order != -1
{ order = 1 }`. -/
def coerceOrder (s : String) : Int :=
  let order := goAtoi s
  if order ≠ 1 ∧ order ≠ -1 then 1 else order

/-- The domain record of the service (struct Article in main.go).  The
filter predicates of the descriptor address its bson field names
"title" and "desc". -/
structure Article where
  ID : String
  Title : String
  Desc : String
  Content : String
deriving DecidableEq

/-- A value stored in the MongoDB filter document by returnAllArticles.
The handler only ever stores a regular-expression match document: the raw
parameter string under the key of the regex operator together with an
option string, which is always the case-insensitivity option "i". -/
inductive FilterValue where
  | regexMatch (pattern : String) (options : String)
deriving DecidableEq

/-- The query descriptor returnAllArticles hands to the store: the filter
document (a map with at most the keys "title" and "desc", here the two
optional entries), the optional sort specification set by SetSort, and
the skip and limit counts set by SetSkip and SetLimit. -/
structure QueryDescriptor where
  filterTitle : Option FilterValue
  filterDesc : Option FilterValue
  sortSpec : Option (String × Int)
  skip : Int
  limit : Int
deriving DecidableEq

/-- The six request query parameters read by returnAllArticles.  The Go
HTTP layer returns the empty string for an absent parameter, so absent
and empty are the same input here; every field defaults to empty. -/
structure Params where
  title : String := ""
  desc : String := ""
  sort : String := ""
  order : String := ""
  page : String := ""
  limit : String := ""
deriving DecidableEq

/-- The query-translation core of returnAllArticles (main.go lines 86
to 117): numeric coercions, `skip := (page - 1) * limit` in wrapping
64-bit int arithmetic, the filter document, and the sort options. -/
def returnAllArticlesQuery (ps : Params) : QueryDescriptor :=
  let page := coercePage ps.page
  let limit := coerceLimit ps.limit
  let skip := wrap64 (wrap64 (page - 1) * limit)
  { filterTitle :=
      if ps.title ≠ "" then some (FilterValue.regexMatch ps.title "i") else none
    filterDesc :=
      if ps.desc ≠ "" then some (FilterValue.regexMatch ps.desc "i") else none
    sortSpec :=
      if ps.sort ≠ "" then some (ps.sort, coerceOrder ps.order) else none
    skip := skip
    limit := limit }

/-! ## Basic range lemmas -/

/-- goAtoi never exceeds intMax. -/
theorem goAtoi_le_intMax (s : String) : goAtoi s ≤ intMax := by
  unfold goAtoi
  cases h : atoiParse s with
  | none => simp [intMax]
  | some v =>
      simp only []
      split
      · exact le_refl _
      · split
        · simp [intMin, intMax]
        · omega

/-- goAtoi never goes below intMin. -/
theorem intMin_le_goAtoi (s : String) : intMin ≤ goAtoi s := by
  unfold goAtoi
  cases h : atoiParse s with
  | none => simp [intMin]
  | some v =>
      simp only []
      split
      · simp [intMin, intMax]
      · split
        · exact le_refl _
        · omega

/-- The coerced page lies between 1 and intMax. -/
theorem coercePage_range (s : String) :
    1 ≤ coercePage s ∧ coercePage s ≤ intMax := by
  have h1 := goAtoi_le_intMax s
  simp only [coercePage]
  split
  · exact ⟨le_refl 1, by unfold intMax; omega⟩
  · exact ⟨by omega, h1⟩

/-- The coerced limit lies between 1 and intMax. -/
theorem coerceLimit_range (s : String) :
    1 ≤ coerceLimit s ∧ coerceLimit s ≤ intMax := by
  have h1 := goAtoi_le_intMax s
  simp only [coerceLimit]
  split
  · exact ⟨by omega, by unfold intMax; omega⟩
  · exact ⟨by omega, h1⟩

/-- wrap64 is the identity on values already in the 64-bit range. -/
theorem wrap64_eq_of_range (n : Int) (h1 : intMin ≤ n) (h2 : n ≤ intMax) :
    wrap64 n = n := by
  unfold wrap64
  unfold intMin at h1
  unfold intMax at h2
  omega

/-- goAtoi is at most 0 whenever the exact parse is absent or at most 0:
the clamp of strconv cannot turn a non-positive exact value positive. -/
theorem goAtoi_nonpos (s : String) (h : (atoiParse s).getD 0 ≤ 0) :
    goAtoi s ≤ 0 := by
  unfold goAtoi
  cases hp : atoiParse s with
  | none => exact le_refl 0
  | some v =>
      rw [hp, Option.getD_some] at h
      have hx : (0 : Int) < intMax := by unfold intMax; omega
      have hn : intMin ≤ (0 : Int) := by unfold intMin; omega
      show (if v > intMax then intMax else if v < intMin then intMin else v) ≤ 0
      split
      · omega
      · split
        · omega
        · omega

/-- When the exact parse succeeds with a value inside the 64-bit range,
goAtoi returns that exact value (the clamp does not fire). -/
theorem goAtoi_of_parse (s : String) (n : Int) (hp : atoiParse s = some n)
    (hmin : intMin ≤ n) (hmax : n ≤ intMax) : goAtoi s = n := by
  unfold goAtoi
  rw [hp]
  show (if n > intMax then intMax else if n < intMin then intMin else n) = n
  rw [if_neg (by omega), if_neg (by omega)]

/-- When the mathematical product of the coerced page minus one and the
coerced limit is at most intMax, the wrap-around is the identity and the
skip field equals the exact product. -/
theorem returnAllArticlesQuery_skip_eq (ps : Params)
    (h : (coercePage ps.page - 1) * coerceLimit ps.limit ≤ intMax) :
    (returnAllArticlesQuery ps).skip =
      (coercePage ps.page - 1) * coerceLimit ps.limit := by
  have hp := coercePage_range ps.page
  have hl := coerceLimit_range ps.limit
  have hmin : intMin ≤ (0 : Int) := by unfold intMin; omega
  have h1 : wrap64 (coercePage ps.page - 1) = coercePage ps.page - 1 :=
    wrap64_eq_of_range _ (by omega) (by omega)
  have hnn : 0 ≤ (coercePage ps.page - 1) * coerceLimit ps.limit :=
    mul_nonneg (by omega) (by omega)
  show wrap64 (wrap64 (coercePage ps.page - 1) * coerceLimit ps.limit) = _
  rw [h1]
  exact wrap64_eq_of_range _ (by omega) h

/-! ## Claims -/

/-- Claim C1, counterexample: at page "3" and limit "4611686018427387904"
(both well-formed numerals inside the 64-bit range) the wrapping
multiplication overflows, so the skip field does not equal the
mathematical product of the coerced page minus one and the coerced
limit. -/
theorem C1_counterexample :
    (returnAllArticlesQuery { page := "3", limit := "4611686018427387904" }).skip ≠
      (coercePage "3" - 1) * coerceLimit "4611686018427387904" := by decide

/-- Claim C1, amended: for every input map, the skip field equals
(page - 1) * limit computed from the coerced page and coerced limit
whenever that mathematical product stays within the 64-bit int range
(the handler computes it in wrapping int arithmetic); in particular page
"2" with limit "5" yields skip 5 and limit 5. -/
theorem C1_skip_eq_product :
    (∀ ps : Params,
        (coercePage ps.page - 1) * coerceLimit ps.limit ≤ intMax →
        (returnAllArticlesQuery ps).skip =
          (coercePage ps.page - 1) * coerceLimit ps.limit)
    ∧ (returnAllArticlesQuery { page := "2", limit := "5" }).skip = 5
    ∧ (returnAllArticlesQuery { page := "2", limit := "5" }).limit = 5 :=
  ⟨fun ps h => returnAllArticlesQuery_skip_eq ps h, by decide, by decide⟩

/-- Claim C1, witness: the overflow-free hypothesis holds at page "2"
and limit "5", and there the theorem gives skip equal to the exact
product. -/
theorem C1_skip_eq_product_witness :
    (coercePage "2" - 1) * coerceLimit "5" ≤ intMax ∧
      (returnAllArticlesQuery { page := "2", limit := "5" }).skip =
        (coercePage "2" - 1) * coerceLimit "5" :=
  ⟨by decide, C1_skip_eq_product.1 { page := "2", limit := "5" } (by decide)⟩

/-- Claim C2, counterexample: at page "3" and limit "4611686018427387904"
the skip field is negative (it wraps to intMin), so not every input map
yields a descriptor with a non-negative skip. -/
theorem C2_counterexample :
    ¬ 0 ≤ (returnAllArticlesQuery
        { page := "3", limit := "4611686018427387904" }).skip := by decide

/-- Claim C2, amended: every input map, however malformed or missing,
yields a descriptor (the translation is total and signals no error)
whose limit is a positive integer; its skip is non-negative whenever the
product of the coerced page minus one and the coerced limit does not
overflow the 64-bit int range. -/
theorem C2_descriptor_valid :
    ∀ ps : Params,
      0 < (returnAllArticlesQuery ps).limit ∧
        ((coercePage ps.page - 1) * coerceLimit ps.limit ≤ intMax →
          0 ≤ (returnAllArticlesQuery ps).skip) := by
  intro ps
  constructor
  · have hl := coerceLimit_range ps.limit
    show 0 < coerceLimit ps.limit
    omega
  · intro h
    rw [returnAllArticlesQuery_skip_eq ps h]
    have hp := coercePage_range ps.page
    have hl := coerceLimit_range ps.limit
    exact mul_nonneg (by omega) (by omega)

/-- Claim C2, witness: on the empty input map the limit is positive, the
overflow-free hypothesis holds, and the skip is non-negative. -/
theorem C2_descriptor_valid_witness :
    0 < (returnAllArticlesQuery ({} : Params)).limit ∧
      0 ≤ (returnAllArticlesQuery ({} : Params)).skip :=
  ⟨(C2_descriptor_valid ({} : Params)).1,
    (C2_descriptor_valid ({} : Params)).2 (by decide)⟩

/-- Claim C3, counterexample: the string "-01" is neither "1" nor "-1",
yet with sort "title" it yields a descending sort specification, because
the handler compares the parsed integer (here -1), not the string. -/
theorem C3_counterexample :
    ("-01" : String) ≠ "1" ∧ ("-01" : String) ≠ "-1" ∧
      (returnAllArticlesQuery { sort := "title", order := "-01" }).sortSpec =
        some ("title", -1) := by decide

/-- Claim C3, amended: when sort is non-empty, the direction is the
integer 1 (ascending) whenever the parsed value of order is neither 1
nor -1, and -1 (descending) whenever order parses to -1 (which includes
the string "-1" but also, for example, "-01"); in particular sort
"title" with order "-1" yields field "title" descending. -/
theorem C3_order_direction :
    (∀ ps : Params, ps.sort ≠ "" → goAtoi ps.order ≠ 1 → goAtoi ps.order ≠ -1 →
        (returnAllArticlesQuery ps).sortSpec = some (ps.sort, 1))
    ∧ (∀ ps : Params, ps.sort ≠ "" → goAtoi ps.order = -1 →
        (returnAllArticlesQuery ps).sortSpec = some (ps.sort, -1))
    ∧ (returnAllArticlesQuery { sort := "title", order := "-1" }).sortSpec =
        some ("title", -1) := by
  refine ⟨?_, ?_, by decide⟩
  · intro ps hs h1 h2
    show (if ps.sort ≠ "" then some (ps.sort, coerceOrder ps.order) else none) = _
    rw [if_pos hs]
    simp only [coerceOrder]
    rw [if_pos ⟨h1, h2⟩]
  · intro ps hs h1
    show (if ps.sort ≠ "" then some (ps.sort, coerceOrder ps.order) else none) = _
    rw [if_pos hs]
    simp only [coerceOrder]
    rw [h1]
    simp

/-- Claim C3, witness: at sort "title" and order "bogus" the order value
parses to 0, neither 1 nor -1, and the direction is ascending. -/
theorem C3_order_direction_witness :
    ("title" : String) ≠ "" ∧ goAtoi "bogus" ≠ 1 ∧ goAtoi "bogus" ≠ -1 ∧
      (returnAllArticlesQuery { sort := "title", order := "bogus" }).sortSpec =
        some ("title", 1) :=
  ⟨by decide, by decide, by decide,
    C3_order_direction.1 { sort := "title", order := "bogus" }
      (by decide) (by decide) (by decide)⟩

/-- Claim C4, confirmed: whenever the page parameter is absent or empty
(the parse fails), non-numeric (the parse fails), zero or negative (the
parsed value is at most 0), the coerced page is 1, and hence the skip of
the descriptor is 0. -/
theorem C4_page_default :
    ∀ ps : Params, (atoiParse ps.page).getD 0 ≤ 0 →
      coercePage ps.page = 1 ∧ (returnAllArticlesQuery ps).skip = 0 := by
  intro ps h
  have h0 : goAtoi ps.page ≤ 0 := goAtoi_nonpos _ h
  have hc : coercePage ps.page = 1 := by
    simp only [coercePage]
    rw [if_pos h0]
  refine ⟨hc, ?_⟩
  show wrap64 (wrap64 (coercePage ps.page - 1) * coerceLimit ps.limit) = 0
  rw [hc]
  have hz : wrap64 0 = 0 := by decide
  simp [hz]

/-- Claim C4, witness: the non-numeric page "abc" fails to parse and the
coerced page is 1. -/
theorem C4_page_default_witness :
    (atoiParse "abc").getD 0 ≤ 0 ∧ coercePage "abc" = 1 :=
  ⟨by decide, (C4_page_default { page := "abc" } (by decide)).1⟩

/-- Claim C5, confirmed: whenever the limit parameter is absent or empty
(the parse fails), non-numeric (the parse fails), zero or negative (the
parsed value is at most 0), the limit of the descriptor is 10. -/
theorem C5_limit_default :
    ∀ ps : Params, (atoiParse ps.limit).getD 0 ≤ 0 →
      (returnAllArticlesQuery ps).limit = 10 := by
  intro ps h
  have h0 : goAtoi ps.limit ≤ 0 := goAtoi_nonpos _ h
  show coerceLimit ps.limit = 10
  simp only [coerceLimit]
  rw [if_pos h0]

/-- Claim C5, witness: the zero limit "0" parses to 0 and the limit of
the descriptor is the default 10. -/
theorem C5_limit_default_witness :
    (atoiParse "0").getD 0 ≤ 0 ∧
      (returnAllArticlesQuery { limit := "0" }).limit = 10 :=
  ⟨by decide, C5_limit_default { limit := "0" } (by decide)⟩

/-- Claim C6, confirmed: a non-empty title parameter puts the
case-insensitive match predicate on the title field into the descriptor
and an absent or empty one puts none, and likewise for the desc
parameter and the desc field; when both are non-empty both predicates
are present. -/
theorem C6_filter_predicates :
    ∀ ps : Params,
      (ps.title ≠ "" →
          (returnAllArticlesQuery ps).filterTitle =
            some (FilterValue.regexMatch ps.title "i")) ∧
      (ps.title = "" → (returnAllArticlesQuery ps).filterTitle = none) ∧
      (ps.desc ≠ "" →
          (returnAllArticlesQuery ps).filterDesc =
            some (FilterValue.regexMatch ps.desc "i")) ∧
      (ps.desc = "" → (returnAllArticlesQuery ps).filterDesc = none) := by
  intro ps
  refine ⟨fun h => ?_, fun h => ?_, fun h => ?_, fun h => ?_⟩
  · show (if ps.title ≠ "" then some (FilterValue.regexMatch ps.title "i")
        else none) = _
    rw [if_pos h]
  · show (if ps.title ≠ "" then some (FilterValue.regexMatch ps.title "i")
        else none) = _
    rw [if_neg (by simp [h])]
  · show (if ps.desc ≠ "" then some (FilterValue.regexMatch ps.desc "i")
        else none) = _
    rw [if_pos h]
  · show (if ps.desc ≠ "" then some (FilterValue.regexMatch ps.desc "i")
        else none) = _
    rw [if_neg (by simp [h])]

/-- Claim C6, witness: with title "Go" and desc "API" both
case-insensitive predicates are present. -/
theorem C6_filter_predicates_witness :
    ("Go" : String) ≠ "" ∧
      (returnAllArticlesQuery { title := "Go", desc := "API" }).filterTitle =
        some (FilterValue.regexMatch "Go" "i") ∧
      (returnAllArticlesQuery { title := "Go", desc := "API" }).filterDesc =
        some (FilterValue.regexMatch "API" "i") :=
  ⟨by decide,
    (C6_filter_predicates { title := "Go", desc := "API" }).1 (by decide),
    (C6_filter_predicates { title := "Go", desc := "API" }).2.2.1 (by decide)⟩

/-- Claim C7, confirmed: two input maps whose sort parameter is empty
(absent) and which agree on every parameter other than order yield
exactly the same descriptor; the order parameter has no effect. -/
theorem C7_order_ignored_without_sortField :
    ∀ ps₁ ps₂ : Params, ps₁.sort = "" → ps₂.sort = "" →
      ps₁.title = ps₂.title → ps₁.desc = ps₂.desc →
      ps₁.page = ps₂.page → ps₁.limit = ps₂.limit →
      returnAllArticlesQuery ps₁ = returnAllArticlesQuery ps₂ := by
  intro ps₁ ps₂ h1 h2 ht hd hp hl
  unfold returnAllArticlesQuery
  rw [h1, h2, ht, hd, hp, hl]
  simp

/-- Claim C7, witness: without a sort parameter, order "1" and
order "-1" give the same descriptor on otherwise equal inputs. -/
theorem C7_order_ignored_without_sortField_witness :
    returnAllArticlesQuery { title := "Go", order := "1", page := "2" } =
      returnAllArticlesQuery { title := "Go", order := "-1", page := "2" } :=
  C7_order_ignored_without_sortField _ _ rfl rfl rfl rfl rfl rfl

/-- Claim C8, confirmed: the handler imposes no upper bound on the limit
parameter; every limit string that parses exactly to a positive integer
n within the 64-bit int range yields a descriptor whose limit is
exactly n. -/
theorem C8_limit_uncapped :
    ∀ ps : Params, ∀ n : Int, atoiParse ps.limit = some n → 0 < n →
      n ≤ intMax → (returnAllArticlesQuery ps).limit = n := by
  intro ps n hp hpos hle
  have hmin : intMin ≤ n := by unfold intMin; omega
  have hg : goAtoi ps.limit = n := goAtoi_of_parse _ _ hp hmin hle
  show coerceLimit ps.limit = n
  simp only [coerceLimit]
  rw [hg, if_neg (by omega)]

/-- Claim C8, witness: the largest representable limit string
"9223372036854775807" passes through to the descriptor unchanged. -/
theorem C8_limit_uncapped_witness :
    atoiParse "9223372036854775807" = some 9223372036854775807 ∧
      (returnAllArticlesQuery { limit := "9223372036854775807" }).limit =
        9223372036854775807 :=
  ⟨by decide,
    C8_limit_uncapped { limit := "9223372036854775807" } 9223372036854775807
      (by decide) (by decide) (by decide)⟩

/-- Claim C9, confirmed: every non-empty sort string is passed verbatim
as the sort key of the descriptor, with no validation against the
Article schema. -/
theorem C9_sortField_verbatim :
    ∀ ps : Params, ps.sort ≠ "" →
      (returnAllArticlesQuery ps).sortSpec =
        some (ps.sort, coerceOrder ps.order) := by
  intro ps h
  show (if ps.sort ≠ "" then some (ps.sort, coerceOrder ps.order)
      else none) = _
  rw [if_pos h]

/-- Claim C9, witness: the string "banana" names no Article field, yet
it becomes the sort key of the descriptor verbatim. -/
theorem C9_sortField_verbatim_witness :
    ("banana" : String) ≠ "" ∧
      (returnAllArticlesQuery { sort := "banana" }).sortSpec =
        some ("banana", 1) :=
  ⟨by decide, C9_sortField_verbatim { sort := "banana" } (by decide)⟩

/-- Claim C10, confirmed: the title and desc parameter values go into
the filter verbatim as regular-expression patterns with the
case-insensitive option and no escaping of metacharacters; the stored
predicate is the regex-match constructor applied to the raw parameter
string. -/
theorem C10_regexPattern_verbatim :
    ∀ ps : Params,
      (ps.title ≠ "" →
          (returnAllArticlesQuery ps).filterTitle =
            some (FilterValue.regexMatch ps.title "i")) ∧
      (ps.desc ≠ "" →
          (returnAllArticlesQuery ps).filterDesc =
            some (FilterValue.regexMatch ps.desc "i")) := by
  intro ps
  refine ⟨fun h => ?_, fun h => ?_⟩
  · show (if ps.title ≠ "" then some (FilterValue.regexMatch ps.title "i")
        else none) = _
    rw [if_pos h]
  · show (if ps.desc ≠ "" then some (FilterValue.regexMatch ps.desc "i")
        else none) = _
    rw [if_pos h]

/-- Claim C10, witness: a title full of regex metacharacters is stored
as the pattern unchanged, with no escaping. -/
theorem C10_regexPattern_verbatim_witness :
    ("a.c|^$" : String) ≠ "" ∧
      (returnAllArticlesQuery { title := "a.c|^$" }).filterTitle =
        some (FilterValue.regexMatch "a.c|^$" "i") :=
  ⟨by decide, (C10_regexPattern_verbatim { title := "a.c|^$" }).1 (by decide)⟩
